import Mathlib

/-!
Verification of `climpred/utils.py` (time-axis normalization, metric and
comparison resolution, lead-time offset computation, forecast and reference
alignment, and skill-attribute bookkeeping).

Calendar timestamps are embedded as integers on an abstract totally ordered
time axis; calendar shifting by an offset (the external `CFTimeIndex.shift`
collaborator) is passed in as an explicit function parameter.  Labeled
containers (`xarray` objects) are embedded as a record of a time axis, a flat
data payload and an attribute map; fallible Python code returns `Except`.
-/

deriving instance DecidableEq for Except

namespace Climpred

/-- Error taxonomy of the pipeline.  The Python source raises `ValueError`
(or trips over an `AttributeError`) in each of these situations; the
constructors follow the taxonomy of the design (InvalidTimeIndexKind,
UnknownNameError, InvalidArgumentTypeError, UnsupportedLeadUnitsError). -/
inductive ClimpredError where
  /-- `convert_time_index`: time axis type unrecognized. -/
  | invalidTimeIndexKind (msg : String)
  /-- `is_in_list`: name not in the allowed list; carries the kind label and
  the permitted choices (the message enumerates them). -/
  | unknownName (kind : String) (choices : List String)
  /-- wrong Python-level type passed where a name or descriptor was expected. -/
  | invalidArgumentType (msg : String)
  /-- `get_lead_cftime_shift_args`: lead-units string outside the recognized
  set; carries the offending units string. -/
  | unsupportedLeadUnits (units : String)
  /-- a Python `AttributeError` (attribute access on an unsuitable object). -/
  | attributeError (msg : String)
  /-- any other Python `ValueError` (e.g. tuple unpacking of a wrong arity). -/
  | valueError (msg : String)
deriving DecidableEq, Repr

/-- A calendar date `(year, month, day)`, the payload of one
`cftime.DatetimeProlepticGregorian` element. -/
structure CFDate where
  year : Int
  month : Int
  day : Int
deriving DecidableEq, Repr

/-- The time index of a labeled container, one constructor per index class
distinguished by `convert_time_index` (utils.py lines 35-59):
`xr.CFTimeIndex`, `pd.DatetimeIndex` (elements reduced to their
year-month-day triple, which is what the source extracts from `str(t)`),
`pd.Int64Index` or `pd.Float64Index` (numeric values as rationals), and any
other index class (carrying its type name). -/
inductive TimeIndex where
  | cf (dates : List CFDate)
  | datetime (dates : List CFDate)
  | numeric (vals : List Rat)
  | other (typeName : String)
deriving DecidableEq, Repr

/-- An attribute value: a string, an integer, or Python `None`. -/
inductive AttrVal where
  | s (v : String)
  | i (v : Int)
  | null
deriving DecidableEq, Repr

/-- An attribute dictionary, embedded as an insertion-ordered association
list with unique keys (Python `dict` semantics for the operations used). -/
abbrev AttrMap := List (String × AttrVal)

/-- Python `str()` of an attribute value, as used by the f-string
interpolation in `assign_attrs`. -/
def attrValStr : AttrVal → String
  | .s v => v
  | .i v => toString v
  | .null => "None"

/-- Dictionary lookup `m[k]` / `k in m`. -/
def getAttr (m : AttrMap) (k : String) : Option AttrVal :=
  match m with
  | [] => none
  | p :: rest => if p.1 = k then some p.2 else getAttr rest k

/-- Dictionary write `m[k] = v`: overwrites in place when the key exists,
appends otherwise (Python insertion order). -/
def setAttr (m : AttrMap) (k : String) (v : AttrVal) : AttrMap :=
  match m with
  | [] => [(k, v)]
  | p :: rest => if p.1 = k then (k, v) :: rest else p :: setAttr rest k v

/-- Dictionary `m.update(other)`: write each entry of `other` in order. -/
def updateAttrs (m : AttrMap) (other : AttrMap) : AttrMap :=
  other.foldl (fun acc p => setAttr acc p.1 p.2) m

/-- A labeled container (`xarray` Dataset/DataArray) as the pipeline sees
it: its named time axis (the dimension selected by the `time_string`
argument in the source), a flat data payload, and an attribute map. -/
structure XObj where
  time : TimeIndex
  data : List Int
  attrs : AttrMap
deriving DecidableEq, Repr

/-- Python `int(t)` on a rational: truncation toward zero.  Both branches
divide a nonnegative numerator by a positive denominator, so the result does
not depend on the integer-division convention. -/
def pyInt (q : Rat) : Int :=
  if q.num < 0 then -((-q.num) / (q.den : Int)) else q.num / (q.den : Int)

/-- The annual-resolution-assumption warning text (utils.py lines 46-49). -/
def annual_res_warning : String :=
  "Assuming annual resolution due to numeric inits. Change init to a datetime if it is another resolution."

/-- Models utils.py line 51 followed by the split and unpacking of lines
52 and 61-63 for one numeric value whose integer part is `n`: the source
builds the string `str(int(t)) + "-01-01"`, splits it on `"-"`, and unpacks
the pieces into a triple `(y, m, d)`.  For `n >= 0` the split yields exactly
the three fields `(n, 1, 1)`; for `n < 0` the leading minus sign of
`str(n)` contributes an extra empty field, the split yields four pieces and
the tuple unpacking raises `ValueError`. -/
def split_date_fields (n : Int) : Except ClimpredError (Int × Int × Int) :=
  if n < 0 then .error (.valueError "too many values to unpack")
  else .ok (n, 1, 1)

/-- The numeric branch of `convert_time_index` (utils.py lines 51-52 and
61-64): build the date fields of each numeric value in order and assemble
the `cftime` dates; the first failure aborts the whole comprehension. -/
def parse_numeric_dates : List Rat → Except ClimpredError (List CFDate)
  | [] => .ok []
  | t :: ts =>
    match split_date_fields (pyInt t) with
    | .error e => .error e
    | .ok ymd =>
      match parse_numeric_dates ts with
      | .error e => .error e
      | .ok rest => .ok (⟨ymd.1, ymd.2.1, ymd.2.2⟩ :: rest)

/-- Embedding of `convert_time_index(xobj, time_string, kind)` (utils.py lines 14-68).
The result pairs the converted container with the list of warnings emitted
on the successful path.  The source first takes a copy of `xobj` (line 32),
so the caller's container is never written to; the embedding renders this
as value semantics.  Branches: an `xr.CFTimeIndex` axis is returned as is;
a `pd.DatetimeIndex` axis is re-encoded date-by-date from its
year-month-day triples (lines 37-40, 61-66); a numeric axis is interpreted
as whole years with a warning (lines 42-52, 61-66); any other axis class
raises (lines 54-59). -/
def convert_time_index (xobj : XObj) (kind : String) :
    Except ClimpredError (XObj × List String) :=
  match xobj.time with
  | .cf _ => .ok (xobj, [])
  | .datetime dates => .ok ({ xobj with time := .cf dates }, [])
  | .numeric vals =>
    match parse_numeric_dates vals with
    | .ok ds => .ok ({ xobj with time := .cf ds }, [annual_res_warning])
    | .error e => .error e
  | .other _ =>
    .error (.invalidTimeIndexKind
      ("Your " ++ kind ++ " object must be pd.Float64Index, pd.Int64Index, xr.CFTimeIndex or pd.DatetimeIndex."))

/-- Embedding of `get_lead_cftime_shift_args(units, lead)` (utils.py lines 130-159):
convert a lead count and its units into a `(value, frequency)` pair for
`CFTimeIndex.shift`; an unrecognized units string raises `ValueError`. -/
def get_lead_cftime_shift_args (units : String) (lead : Int) :
    Except ClimpredError (Int × String) :=
  if units = "years" then .ok (lead, "YS")
  else if units = "months" then .ok (lead, "MS")
  else if units = "weeks" then .ok (lead * 7, "D")
  else if units = "days" then .ok (lead, "D")
  else if units = "seasons" then .ok (lead * 3, "MS")
  else if units = "pentads" then .ok (lead * 5, "D")
  else .error (.unsupportedLeadUnits units)

/-- A time series: the entries of a labeled container along its `time`
dimension, in axis order, each carrying its timestamp and its data value.
`where(cond, drop=True)` along `time` keeps exactly the entries whose
timestamp satisfies the condition. -/
abbrev Series := List (Int × Int)

/-- The time axis of a series (`obj['time']`). -/
def seriesTimes (s : Series) : List Int := s.map Prod.fst

/-- The `.min()` of a time axis (0 on an empty axis, unused by the claims). -/
def listMin : List Int → Int
  | [] => 0
  | x :: xs => xs.foldl min x

/-- The `.max()` of a time axis (0 on an empty axis, unused by the claims). -/
def listMax : List Int → Int
  | [] => 0
  | x :: xs => xs.foldl max x

/-- Embedding of `reduce_time_series(forecast, reference, nlags)` (utils.py lines
170-197).  `leadUnits` stands for the `units` attribute of the forecast's
`lead` coordinate (line 185); `cfShift n freq t` stands for the external
`CFTimeIndex.shift(n, freq)` collaborator applied to the timestamp `t`
(line 189).  The reference's axis is shifted by the negated offset (line
187), the window bounds are taken (lines 191-192) and the two series are
truncated by `where(..., drop=True)` (lines 194-196). -/
def reduce_time_series (forecast reference : Series) (leadUnits : String)
    (nlags : Int) (cfShift : Int → String → Int → Int) :
    Except ClimpredError (Series × Series) :=
  match get_lead_cftime_shift_args leadUnits nlags with
  | .error e => .error e
  | .ok offset_args =>
    let shift_n := offset_args.1 * -1
    let shift_str := offset_args.2
    let ref_dates := (seriesTimes reference).map (cfShift shift_n shift_str)
    let imin := max (listMin (seriesTimes forecast)) (listMin (seriesTimes reference))
    let imax := min (listMax (seriesTimes forecast)) (listMax ref_dates)
    let forecast1 := forecast.filter (fun e => e.1 ≤ imax)
    let forecast2 := forecast1.filter (fun e => imin ≤ e.1)
    let reference1 := reference.filter (fun e => imin ≤ e.1)
    .ok (forecast2, reference1)

/-- A metric descriptor (`metrics.Metric`): the fields `assign_attrs`
reads.  The full catalog lives in the `metrics` module, outside this
excerpt. -/
structure Metric where
  name : String
  unit_power : Int
deriving DecidableEq, Repr

/-- A comparison descriptor (`comparisons.Comparison`): the field
`assign_attrs` reads. -/
structure Comparison where
  name : String
deriving DecidableEq, Repr

/-- The dynamically typed `metric` argument of `get_metric_class`: a
`metrics.Metric` instance, a string, or a value of any other Python type
(carrying the rendering of `type(metric)` used in the error message). -/
inductive MetricInput where
  | descr (m : Metric)
  | str (s : String)
  | other (typeName : String)
deriving DecidableEq, Repr

/-- The dynamically typed `comparison` argument of `get_comparison_class`. -/
inductive ComparisonInput where
  | descr (c : Comparison)
  | str (s : String)
  | other (typeName : String)
deriving DecidableEq, Repr

/-- Modelled from the spec: `checks.is_in_list` (checks.py is not part of
this excerpt).  Per the design, it verifies membership of the given value
in the allowed list and fails with the unknown-name error enumerating the
valid choices when absent.  A non-string value (passed as `none` here) is
never equal to any entry of the list of names, so it fails the same way. -/
def is_in_list (value : Option String) (list_ : List String) (kind : String) :
    Except ClimpredError Unit :=
  match value with
  | some s => if s ∈ list_ then .ok () else .error (.unknownName kind list_)
  | none => .error (.unknownName kind list_)

/-- Embedding of `get_metric_class(metric, list_)` (utils.py lines 71-98).
`metricAliases` stands for `METRIC_ALIASES.get(·, ·)` (constants.py, not in
this excerpt, modelled from the spec as alias-to-canonical resolution) and
`metricsRegistry` for `getattr(metrics, ...)` on the metrics module; the
source prepends two underscores to the looked-up name (line 94).  A
descriptor instance is returned as is; a string is checked against the
allowed list, alias-resolved and looked up; any other type raises
`ValueError` with the invalid-argument-type message (lines 95-98). -/
def get_metric_class (metricAliases : String → String)
    (metricsRegistry : String → Option Metric) (metric : MetricInput)
    (list_ : List String) : Except ClimpredError Metric :=
  match metric with
  | .descr m => .ok m
  | .str s =>
    match is_in_list (some s) list_ "metric" with
    | .error e => .error e
    | .ok _ =>
      match metricsRegistry ("__" ++ metricAliases s) with
      | some m => .ok m
      | none => .error (.attributeError "module metrics has no such attribute")
  | .other typeName =>
    .error (.invalidArgumentType
      ("Please provide metric as str or Metric class, found " ++ typeName))

/-- Embedding of `get_comparison_class(comparison, list_)` (utils.py lines 101-127).
`comparisonsRegistry` stands for `getattr(comparisons, ...)`.  A descriptor
instance is returned as is; EVERY other value — string or not — goes to the
`else` branch, which runs the membership check and then the lookup; there
is no type guard and no invalid-argument-type error in this function. -/
def get_comparison_class (comparisonsRegistry : String → Option Comparison)
    (comparison : ComparisonInput) (list_ : List String) :
    Except ClimpredError Comparison :=
  match comparison with
  | .descr c => .ok c
  | .str s =>
    match is_in_list (some s) list_ "comparison" with
    | .error e => .error e
    | .ok _ =>
      match comparisonsRegistry ("__" ++ s) with
      | some c => .ok c
      | none => .error (.attributeError "module comparisons has no such attribute")
  | .other _ =>
    match is_in_list none list_ "comparison" with
    | .error e => .error e
    | .ok _ => .error (.attributeError "unreachable")

/-- The attribute bookkeeping of utils.py lines 223-238: bind the skill's
attributes to `ds.attrs`, stamp the climpred provenance entries, the
compute-function name, the `init`/`member` coordinate sizes when `ds` has
those coordinates, and the metric, comparison and dimension names. -/
def base_skill_attrs (dsAttrs : AttrMap) (dsInitSize dsMemberSize : Option Nat)
    (function_name : String) (metric : Metric) (comparison : Comparison)
    (dim : String) : AttrMap :=
  let attrs := dsAttrs
  let attrs := setAttr attrs "prediction_skill"
    (.s "calculated by climpred https://climpred.readthedocs.io/")
  let attrs := setAttr attrs "skill_calculated_by_function" (.s function_name)
  let attrs := match dsInitSize with
    | some k => setAttr attrs "number_of_initializations" (.i k)
    | none => attrs
  let attrs := match dsMemberSize with
    | some k => setAttr attrs "number_of_members" (.i k)
    | none => attrs
  let attrs := setAttr attrs "metric" (.s metric.name)
  let attrs := setAttr attrs "comparison" (.s comparison.name)
  setAttr attrs "dim" (.s dim)

/-- The unit-power rewrite of utils.py lines 240-246: a metric with unit
power 0 clears the `units` attribute to the string `"None"`; a metric with
unit power at least 2 whose attributes carry a `units` key rewrites it to
`"(unit)^p"`. -/
def unit_power_attrs (attrs : AttrMap) (metric : Metric) : AttrMap :=
  let attrs := if metric.unit_power = 0 then setAttr attrs "units" (.s "None") else attrs
  if 2 ≤ metric.unit_power then
    match getAttr attrs "units" with
    | some u =>
      setAttr attrs "units"
        (.s ("(" ++ attrValStr u ++ ")^" ++ toString metric.unit_power))
    | none => attrs
  else attrs

/-- Embedding of `assign_attrs(skill, ds, function_name, metadata_dict, metric,
comparison, dim)` (utils.py lines 200-264).  `skillAttrs` are the skill
container's prior attributes — discarded outright by line 224, which
rebinds them to a copy of `ds.attrs`.  `dsInitSize`/`dsMemberSize` are the
sizes of the `init`/`member` coordinates when `ds` has them (lines
231-234); `created` stands for the wall-clock reading of line 263.
`metric` and `comparison` are modelled as required because the claims under
study always supply them (the Python defaults of `None` would already trip
on `metric.name` at line 236).  After the attribute stamping (lines
224-238) and the unit-power rewrite (lines 240-246), the
`metadata_dict.items()` iteration of line 250 drops the `None`-valued
entries other than `units`; it runs before the `None` guard of lines
257-258, so a `None` dictionary raises `AttributeError` there.  On the
successful path the remaining metadata entries and the creation timestamp
are written last (lines 259-263). -/
def assign_attrs (skillAttrs dsAttrs : AttrMap)
    (dsInitSize dsMemberSize : Option Nat) (function_name : String)
    (metadata_dict : Option AttrMap) (metric : Metric)
    (comparison : Comparison) (dim : String) (created : String) :
    Except ClimpredError AttrMap :=
  let attrs := unit_power_attrs
    (base_skill_attrs dsAttrs dsInitSize dsMemberSize function_name metric
      comparison dim) metric
  match metadata_dict with
  | none => .error (.attributeError "NoneType object has no attribute items")
  | some md =>
    let md2 := md.filter (fun p => !(p.2 == AttrVal.null && p.1 != "units"))
    let attrs := updateAttrs attrs md2
    let attrs := setAttr attrs "created" (.s created)
    .ok attrs

/-- Modelled from the spec: the external `CFTimeIndex.shift(n, "D")`
collaborator on a day-granularity timeline — shifting a timestamp by `n`
day steps adds `n` to it.  Instantiates the `cfShift` parameter of
`reduce_time_series` for concrete computations. -/
def dayShift : Int → String → Int → Int := fun n _ t => t + n

/-- A regularly spaced time axis: `n` timestamps starting at `a` with
spacing `d`. -/
def gridTimes (a d : Int) (n : Nat) : List Int :=
  (List.range n).map (fun k : Nat => a + d * (k : Int))

/-- A series on a regularly spaced time axis (data values all zero; only
the timestamps matter for alignment). -/
def gridSeries (a d : Int) (n : Nat) : Series :=
  (gridTimes a d n).map (fun t => (t, 0))

/-- The correspondence property asserted by the spec for the two series
returned by alignment at a lag whose calendar offset is `offset`: every
retained forecast initialization advanced by the offset hits a retained
reference timestamp, and every retained reference timestamp shifted
backward by the offset hits a retained forecast initialization. -/
def lagCorrespondence (fc ref : Series) (offset : Int) : Prop :=
  (∀ e ∈ fc, ∃ e2 ∈ ref, e.1 + offset = e2.1) ∧
  (∀ e2 ∈ ref, ∃ e ∈ fc, e2.1 - offset = e.1)

instance (fc ref : Series) (offset : Int) :
    Decidable (lagCorrespondence fc ref offset) := by
  unfold lagCorrespondence; infer_instance

/-- Whether a fallible computation returned normally. -/
def succeeds {ε α : Type} : Except ε α → Bool
  | .ok _ => true
  | .error _ => false

/-- Whether a resolver call failed with the invalid-argument-type error. -/
def resultIsInvalidArgumentType {α : Type} : Except ClimpredError α → Bool
  | .error (.invalidArgumentType _) => true
  | _ => false

/-- The `units` attribute of the skill container returned by
`assign_attrs` (`none` when the call failed or the key is absent). -/
def unitsAfter (r : Except ClimpredError AttrMap) : Option AttrVal :=
  match r with
  | .ok attrs => getAttr attrs "units"
  | .error _ => none

/-! ## Helper lemmas -/

theorem parse_numeric_dates_ok (vals : List Rat) (h : ∀ q ∈ vals, 0 ≤ pyInt q) :
    parse_numeric_dates vals = .ok (vals.map (fun q => ⟨pyInt q, 1, 1⟩)) := by
  induction vals with
  | nil => rfl
  | cons t ts ih =>
    have ht : ¬ pyInt t < 0 := not_lt.mpr (h t (by simp))
    have hts := ih (fun q hq => h q (List.mem_cons_of_mem t hq))
    simp [parse_numeric_dates, split_date_fields, ht, hts]

theorem filter_and {α : Type} (p q : α → Bool) (l : List α) :
    (l.filter p).filter q = l.filter (fun a => p a && q a) := by
  induction l with
  | nil => rfl
  | cons x xs ih =>
    by_cases hp : p x <;> by_cases hq : q x <;>
      simp [List.filter_cons, hp, hq, ih]

theorem reduce_time_series_eq (forecast reference : Series) (leadUnits : String)
    (nlags nv : Int) (freq : String) (cfShift : Int → String → Int → Int)
    (hok : get_lead_cftime_shift_args leadUnits nlags = .ok (nv, freq)) :
    reduce_time_series forecast reference leadUnits nlags cfShift =
      .ok
        (forecast.filter (fun e =>
          decide (e.1 ≤ min (listMax (seriesTimes forecast))
            (listMax ((seriesTimes reference).map (cfShift (-nv) freq)))) &&
          decide (max (listMin (seriesTimes forecast))
            (listMin (seriesTimes reference)) ≤ e.1)),
         reference.filter (fun e =>
          decide (max (listMin (seriesTimes forecast))
            (listMin (seriesTimes reference)) ≤ e.1))) := by
  simp only [reduce_time_series, hok, mul_neg_one]
  rw [filter_and]

/-! ## Claim theorems -/

/-- Claim C3: `get_lead_cftime_shift_args` returns `(L, year-start)` for
units `years`, `(L, month-start)` for `months`, `(7L, days)` for `weeks`,
`(L, days)` for `days`, `(3L, month-start)` for `seasons` and `(5L, days)`
for `pentads`, and fails with the unsupported-lead-units error on any other
units string. -/
theorem get_lead_cftime_shift_args_spec (L : Int) :
    get_lead_cftime_shift_args "years" L = .ok (L, "YS") ∧
    get_lead_cftime_shift_args "months" L = .ok (L, "MS") ∧
    get_lead_cftime_shift_args "weeks" L = .ok (L * 7, "D") ∧
    get_lead_cftime_shift_args "days" L = .ok (L, "D") ∧
    get_lead_cftime_shift_args "seasons" L = .ok (L * 3, "MS") ∧
    get_lead_cftime_shift_args "pentads" L = .ok (L * 5, "D") ∧
    ∀ u : String,
      u ∉ (["years", "months", "weeks", "days", "seasons", "pentads"] : List String) →
      get_lead_cftime_shift_args u L = .error (.unsupportedLeadUnits u) := by
  refine ⟨rfl, rfl, rfl, rfl, rfl, rfl, ?_⟩
  intro u hu
  simp only [List.mem_cons, List.not_mem_nil, or_false, not_or] at hu
  obtain ⟨h1, h2, h3, h4, h5, h6⟩ := hu
  simp [get_lead_cftime_shift_args, h1, h2, h3, h4, h5, h6]

/-- Witness for C3 at lag 2 and at the unrecognized units `fortnights`. -/
theorem get_lead_cftime_shift_args_spec_witness :
    get_lead_cftime_shift_args "years" 2 = .ok (2, "YS") ∧
    get_lead_cftime_shift_args "fortnights" 2 =
      .error (.unsupportedLeadUnits "fortnights") :=
  ⟨(get_lead_cftime_shift_args_spec 2).1,
   (get_lead_cftime_shift_args_spec 2).2.2.2.2.2.2 "fortnights" (by decide)⟩

/-- Claim C6: on a container whose time axis is already calendar-aware
(`xr.CFTimeIndex`), `convert_time_index` is a no-op — it returns a
container equal to its input, with no warning and no error. -/
theorem convert_time_index_cf_noop (dates : List CFDate) (data : List Int)
    (attrs : AttrMap) (kind : String) :
    convert_time_index ⟨.cf dates, data, attrs⟩ kind =
      .ok (⟨.cf dates, data, attrs⟩, []) := rfl

/-- Claim C10: leaving `metadata_dict` at its default of `None` makes
`assign_attrs` fail with an `AttributeError`, because `metadata_dict.items()`
is iterated before the `None` guard that would replace it by an empty
dictionary. -/
theorem assign_attrs_none_metadata_raises (skillAttrs dsAttrs : AttrMap)
    (dsInitSize dsMemberSize : Option Nat) (function_name : String)
    (metric : Metric) (comparison : Comparison) (dim created : String) :
    assign_attrs skillAttrs dsAttrs dsInitSize dsMemberSize function_name
      none metric comparison dim created =
      .error (.attributeError "NoneType object has no attribute items") := rfl

/-- Counterexample to claim C5 as stated: on the numeric axis `[-1]` the
conversion does not return January-1 timestamps at all — the leading minus
sign of `str(-1)` makes the `split("-")` yield four fields and the tuple
unpacking raises `ValueError`. -/
theorem convert_time_index_negative_year_raises :
    convert_time_index ⟨.numeric [-1], [], []⟩ "init" =
      .error (.valueError "too many values to unpack") ∧
    convert_time_index ⟨.numeric [-1], [], []⟩ "init" ≠
      .ok (⟨.cf [⟨-1, 1, 1⟩], [], []⟩, [annual_res_warning]) := by
  constructor
  · decide
  · decide

/-- Claim C5 (amended): on a numeric time axis all of whose values have a
nonnegative integer part, `convert_time_index` returns the container with
each value replaced by the January-1 calendar date of its truncated year,
and emits exactly the one annual-resolution warning; values with a
negative integer part instead make the call fail with a `ValueError` from
tuple unpacking. -/
theorem convert_time_index_numeric_annual (vals : List Rat) (data : List Int)
    (attrs : AttrMap) (kind : String) (h : ∀ q ∈ vals, 0 ≤ pyInt q) :
    convert_time_index ⟨.numeric vals, data, attrs⟩ kind =
      .ok (⟨.cf (vals.map (fun q => ⟨pyInt q, 1, 1⟩)), data, attrs⟩,
        [annual_res_warning]) := by
  simp [convert_time_index, parse_numeric_dates_ok vals h]

/-- Witness for C5 on the integer-year axis `[1955, 1956, 1957]`. -/
theorem convert_time_index_numeric_annual_witness :
    convert_time_index ⟨.numeric [1955, 1956, 1957], [1, 2, 3], []⟩ "init" =
      .ok (⟨.cf ([(1955 : Rat), 1956, 1957].map (fun q => ⟨pyInt q, 1, 1⟩)),
        [1, 2, 3], []⟩, [annual_res_warning]) ∧
    [(1955 : Rat), 1956, 1957].map (fun q => (⟨pyInt q, 1, 1⟩ : CFDate)) =
      [⟨1955, 1, 1⟩, ⟨1956, 1, 1⟩, ⟨1957, 1, 1⟩] :=
  ⟨convert_time_index_numeric_annual [1955, 1956, 1957] [1, 2, 3] [] "init"
    (by decide), by decide⟩

/-- Counterexample to claim C7 as stated: the numeric axis `[-2]` is of a
recognized kind, yet the conversion does not succeed on it. -/
theorem convert_time_index_negative_numeric_fails :
    succeeds (convert_time_index ⟨.numeric [-2], [], []⟩ "observations") = false := by
  decide

/-- Claim C7 (amended): `convert_time_index` fails with the
invalid-time-index-kind error exactly on unrecognized axis kinds; it
succeeds on the recognized kinds — calendar-aware, datetime, and numeric —
except that a numeric axis containing a value with negative integer part
fails with a `ValueError` instead. -/
theorem convert_time_index_kind_dispatch (typeName kind : String)
    (cfDates dtDates : List CFDate) (vals : List Rat) (data : List Int)
    (attrs : AttrMap) (hvals : ∀ q ∈ vals, 0 ≤ pyInt q) :
    convert_time_index ⟨.other typeName, data, attrs⟩ kind =
      .error (.invalidTimeIndexKind
        ("Your " ++ kind ++ " object must be pd.Float64Index, pd.Int64Index, xr.CFTimeIndex or pd.DatetimeIndex.")) ∧
    succeeds (convert_time_index ⟨.cf cfDates, data, attrs⟩ kind) = true ∧
    succeeds (convert_time_index ⟨.datetime dtDates, data, attrs⟩ kind) = true ∧
    succeeds (convert_time_index ⟨.numeric vals, data, attrs⟩ kind) = true := by
  refine ⟨rfl, rfl, rfl, ?_⟩
  simp [convert_time_index, parse_numeric_dates_ok vals hvals, succeeds]

/-- Witness for C7 on concrete instances of all four axis kinds. -/
theorem convert_time_index_kind_dispatch_witness :
    convert_time_index ⟨.other "RangeIndex", [4], []⟩ "init" =
      .error (.invalidTimeIndexKind
        ("Your " ++ "init" ++ " object must be pd.Float64Index, pd.Int64Index, xr.CFTimeIndex or pd.DatetimeIndex.")) ∧
    succeeds (convert_time_index ⟨.cf [⟨2000, 3, 1⟩], [4], []⟩ "init") = true ∧
    succeeds (convert_time_index ⟨.datetime [⟨2000, 3, 1⟩], [4], []⟩ "init") = true ∧
    succeeds (convert_time_index ⟨.numeric [2000], [4], []⟩ "init") = true :=
  convert_time_index_kind_dispatch "RangeIndex" "init" [⟨2000, 3, 1⟩]
    [⟨2000, 3, 1⟩] [2000] [4] [] (by decide)

/-- Claim C9: `convert_time_index` never changes a container's data payload
or attributes — whenever it returns a container, that container differs
from the input only in its time axis.  The caller's own container is
untouched because the source copies it on entry (utils.py line 32),
rendered here by value semantics. -/
theorem convert_time_index_preserves_payload (x : XObj) (kind : String)
    (y : XObj) (ws : List String)
    (h : convert_time_index x kind = .ok (y, ws)) :
    y.data = x.data ∧ y.attrs = x.attrs := by
  obtain ⟨t, d, a⟩ := x
  cases t with
  | cf dates =>
    simp only [convert_time_index, Except.ok.injEq, Prod.mk.injEq] at h
    obtain ⟨h1, h2⟩ := h
    rw [← h1]
    exact ⟨rfl, rfl⟩
  | datetime dates =>
    simp only [convert_time_index, Except.ok.injEq, Prod.mk.injEq] at h
    obtain ⟨h1, h2⟩ := h
    rw [← h1]
    exact ⟨rfl, rfl⟩
  | numeric vals =>
    simp only [convert_time_index] at h
    split at h
    · simp only [Except.ok.injEq, Prod.mk.injEq] at h
      obtain ⟨h1, h2⟩ := h
      rw [← h1]
      exact ⟨rfl, rfl⟩
    · simp at h
  | other tn =>
    simp only [convert_time_index] at h
    simp at h

/-- Witness for C9: conversion of a numeric-axis container preserves data
and attributes. -/
theorem convert_time_index_preserves_payload_witness :
    (⟨.cf [⟨1955, 1, 1⟩], [7], [("units", AttrVal.s "K")]⟩ : XObj).data =
      (⟨.numeric [1955], [7], [("units", AttrVal.s "K")]⟩ : XObj).data ∧
    (⟨.cf [⟨1955, 1, 1⟩], [7], [("units", AttrVal.s "K")]⟩ : XObj).attrs =
      (⟨.numeric [1955], [7], [("units", AttrVal.s "K")]⟩ : XObj).attrs :=
  convert_time_index_preserves_payload
    ⟨.numeric [1955], [7], [("units", AttrVal.s "K")]⟩ "init"
    ⟨.cf [⟨1955, 1, 1⟩], [7], [("units", AttrVal.s "K")]⟩
    [annual_res_warning] (by decide)

/-- Counterexample to claim C4 as stated: a non-string, non-descriptor
argument (here a Python `int`) does NOT make `get_comparison_class` fail
with the invalid-argument-type error — it attempts the membership lookup
and fails with the unknown-name error instead. -/
theorem get_comparison_class_no_type_guard :
    resultIsInvalidArgumentType (get_comparison_class (fun _ => none)
      (.other "int") ["m2m", "m2c", "m2e", "e2c"]) = false ∧
    get_comparison_class (fun _ => none) (.other "int")
      ["m2m", "m2c", "m2e", "e2c"] =
      .error (.unknownName "comparison" ["m2m", "m2c", "m2e", "e2c"]) :=
  ⟨rfl, rfl⟩

/-- Claim C4 (amended): on an argument that is neither a descriptor of the
expected class nor a string, `get_metric_class` fails with the
invalid-argument-type error before any lookup; `get_comparison_class` has
no such type guard — it goes on to the membership check and fails with the
unknown-name error instead. -/
theorem resolver_non_string_inputs (metricAliases : String → String)
    (metricsRegistry : String → Option Metric)
    (comparisonsRegistry : String → Option Comparison) (typeName : String)
    (lm lc : List String) :
    get_metric_class metricAliases metricsRegistry (.other typeName) lm =
      .error (.invalidArgumentType
        ("Please provide metric as str or Metric class, found " ++ typeName)) ∧
    get_comparison_class comparisonsRegistry (.other typeName) lc =
      .error (.unknownName "comparison" lc) :=
  ⟨rfl, rfl⟩

/-! ## Attribute-map lemmas -/

theorem getAttr_setAttr_self (m : AttrMap) (k : String) (v : AttrVal) :
    getAttr (setAttr m k v) k = some v := by
  induction m with
  | nil => simp [setAttr, getAttr]
  | cons p rest ih =>
    by_cases h : p.1 = k
    · simp [setAttr, h, getAttr]
    · simp [setAttr, h, getAttr, ih]

theorem getAttr_setAttr_other (m : AttrMap) (k k2 : String) (v : AttrVal)
    (h : k2 ≠ k) : getAttr (setAttr m k v) k2 = getAttr m k2 := by
  induction m with
  | nil => simp [setAttr, getAttr, Ne.symm h]
  | cons p rest ih =>
    by_cases hp : p.1 = k
    · simp [setAttr, hp, getAttr, Ne.symm h, hp ▸ Ne.symm h]
    · simp [setAttr, hp, getAttr, ih]

theorem updateAttrs_cons (m : AttrMap) (p : String × AttrVal) (rest : AttrMap) :
    updateAttrs m (p :: rest) = updateAttrs (setAttr m p.1 p.2) rest := rfl

theorem getAttr_updateAttrs_not_mem (m md : AttrMap) (k : String)
    (h : ∀ p ∈ md, p.1 ≠ k) :
    getAttr (updateAttrs m md) k = getAttr m k := by
  induction md generalizing m with
  | nil => rfl
  | cons p rest ih =>
    have hp : p.1 ≠ k := h p (by simp)
    have hrest : ∀ q ∈ rest, q.1 ≠ k := fun q hq => h q (List.mem_cons_of_mem p hq)
    rw [updateAttrs_cons, ih _ hrest,
      getAttr_setAttr_other _ _ _ _ (Ne.symm hp)]

theorem getAttr_base_skill_attrs_units (dsAttrs : AttrMap)
    (dsInitSize dsMemberSize : Option Nat) (function_name : String)
    (metric : Metric) (comparison : Comparison) (dim : String) :
    getAttr (base_skill_attrs dsAttrs dsInitSize dsMemberSize function_name
      metric comparison dim) "units" = getAttr dsAttrs "units" := by
  cases dsInitSize <;> cases dsMemberSize <;>
    simp only [base_skill_attrs] <;>
    rw [getAttr_setAttr_other _ _ _ _ (by decide),
      getAttr_setAttr_other _ _ _ _ (by decide),
      getAttr_setAttr_other _ _ _ _ (by decide)] <;>
    [skip;
     rw [getAttr_setAttr_other _ _ _ _ (by decide)];
     rw [getAttr_setAttr_other _ _ _ _ (by decide)];
     rw [getAttr_setAttr_other _ _ _ _ (by decide),
       getAttr_setAttr_other _ _ _ _ (by decide)]] <;>
    rw [getAttr_setAttr_other _ _ _ _ (by decide),
      getAttr_setAttr_other _ _ _ _ (by decide)]

theorem getAttr_unit_power_attrs (attrs : AttrMap) (metric : Metric) :
    getAttr (unit_power_attrs attrs metric) "units" =
      if metric.unit_power = 0 then some (.s "None")
      else if 2 ≤ metric.unit_power then
        match getAttr attrs "units" with
        | some u =>
          some (.s ("(" ++ attrValStr u ++ ")^" ++ toString metric.unit_power))
        | none => getAttr attrs "units"
      else getAttr attrs "units" := by
  unfold unit_power_attrs
  by_cases h0 : metric.unit_power = 0
  · have h2 : ¬ 2 ≤ metric.unit_power := by omega
    simp [h0, h2, getAttr_setAttr_self]
  · by_cases h2 : 2 ≤ metric.unit_power
    · cases hu : getAttr attrs "units" with
      | some u =>
        simp only [if_neg h0, if_pos h2, hu]
        rw [getAttr_setAttr_self]
      | none =>
        simp only [if_neg h0, if_pos h2, hu]
    · simp [h0, h2]

/-- Counterexample to claim C8 as stated: with metric unit power 0 but a
metadata dictionary that itself carries a `units` entry, the returned
`units` attribute is the metadata value, not the cleared no-unit marker —
the metadata update of utils.py line 259 runs after the unit-power rewrite
and overrides it. -/
theorem assign_attrs_metadata_overrides_units :
    unitsAfter (assign_attrs [] [] none none "compute_hindcast"
      (some [("units", AttrVal.s "K")]) ⟨"crpss", 0⟩ ⟨"m2r"⟩ "init" "2020") =
      some (AttrVal.s "K") ∧
    unitsAfter (assign_attrs [] [] none none "compute_hindcast"
      (some [("units", AttrVal.s "K")]) ⟨"crpss", 0⟩ ⟨"m2r"⟩ "init" "2020") ≠
      some (AttrVal.s "None") := by
  constructor
  · decide
  · decide

/-- Claim C8 (amended): on a successful `assign_attrs` call whose metadata
dictionary carries no `units` entry, a metric unit power of 0 clears the
returned `units` attribute to the no-unit marker `"None"`; a unit power of
at least 2 rewrites a present `units` attribute (inherited from the
prediction ensemble's attributes) to `"(unit)^p"`; a unit power of 1
leaves the `units` attribute unchanged.  A metadata entry keyed `units` is
written afterwards and overrides the rewrite, which is what refutes the
claim as stated. -/
theorem assign_attrs_unit_power_rewrite (skillAttrs dsAttrs : AttrMap)
    (dsInitSize dsMemberSize : Option Nat) (function_name : String)
    (md : AttrMap) (metric : Metric) (comparison : Comparison)
    (dim created : String) (result : AttrMap)
    (hmd : ∀ p ∈ md, p.1 ≠ "units")
    (hres : assign_attrs skillAttrs dsAttrs dsInitSize dsMemberSize
      function_name (some md) metric comparison dim created = .ok result) :
    (metric.unit_power = 0 → getAttr result "units" = some (.s "None")) ∧
    (∀ u, 2 ≤ metric.unit_power → getAttr dsAttrs "units" = some u →
      getAttr result "units" =
        some (.s ("(" ++ attrValStr u ++ ")^" ++ toString metric.unit_power))) ∧
    (metric.unit_power = 1 → getAttr result "units" = getAttr dsAttrs "units") := by
  simp only [assign_attrs, Except.ok.injEq] at hres
  subst hres
  have hmd2 : ∀ p ∈ md.filter (fun p => !(p.2 == AttrVal.null && p.1 != "units")),
      p.1 ≠ "units" :=
    fun p hp => hmd p (List.mem_filter.mp hp).1
  rw [getAttr_setAttr_other _ _ _ _ (by decide),
    getAttr_updateAttrs_not_mem _ _ _ hmd2,
    getAttr_unit_power_attrs, getAttr_base_skill_attrs_units]
  refine ⟨?_, ?_, ?_⟩
  · intro h0
    simp [h0]
  · intro u h2 hu
    have h0 : ¬ metric.unit_power = 0 := by omega
    simp [h0, h2, hu]
  · intro h1
    have h0 : ¬ metric.unit_power = 0 := by omega
    have h2 : ¬ 2 ≤ metric.unit_power := by omega
    simp [h0, h2]

/-- Witness for C8 with a unit-power-2 metric on a skill inheriting the
unit `K`: the returned `units` attribute is the squared unit string. -/
theorem assign_attrs_unit_power_rewrite_witness :
    getAttr [("units", AttrVal.s "(K)^2"),
      ("prediction_skill", AttrVal.s "calculated by climpred https://climpred.readthedocs.io/"),
      ("skill_calculated_by_function", AttrVal.s "compute_hindcast"),
      ("metric", AttrVal.s "mse"), ("comparison", AttrVal.s "e2r"),
      ("dim", AttrVal.s "time"), ("note", AttrVal.s "x"),
      ("created", AttrVal.s "2020-01-01")] "units" =
      some (.s ("(" ++ attrValStr (AttrVal.s "K") ++ ")^" ++
        toString (⟨"mse", 2⟩ : Metric).unit_power)) :=
  (assign_attrs_unit_power_rewrite [] [("units", AttrVal.s "K")] none none
    "compute_hindcast" [("note", AttrVal.s "x")] ⟨"mse", 2⟩ ⟨"e2r"⟩ "time"
    "2020-01-01" _ (by decide) (by decide)).2.1 (AttrVal.s "K") (by decide)
    (by decide)

/-! ## Minimum/maximum and grid lemmas -/

theorem foldl_min_le_init (xs : List Int) (a : Int) : xs.foldl min a ≤ a := by
  induction xs generalizing a with
  | nil => exact le_refl a
  | cons y ys ih => exact le_trans (ih (min a y)) (min_le_left a y)

theorem foldl_min_le_mem (xs : List Int) (a y : Int) (h : y ∈ xs) :
    xs.foldl min a ≤ y := by
  induction xs generalizing a with
  | nil => cases h
  | cons z zs ih =>
    rcases List.mem_cons.mp h with rfl | hz
    · exact le_trans (foldl_min_le_init zs (min a y)) (min_le_right a y)
    · exact ih (min a z) hz

theorem foldl_min_mem_or (xs : List Int) (a : Int) :
    xs.foldl min a = a ∨ xs.foldl min a ∈ xs := by
  induction xs generalizing a with
  | nil => exact Or.inl rfl
  | cons y ys ih =>
    rcases ih (min a y) with h | h
    · rcases le_total a y with hay | hay
      · left
        rw [List.foldl_cons, h, min_eq_left hay]
      · right
        rw [List.foldl_cons, h, min_eq_right hay]
        exact List.mem_cons_self y ys
    · right
      exact List.mem_cons_of_mem y h

theorem listMin_le (l : List Int) (y : Int) (h : y ∈ l) : listMin l ≤ y := by
  cases l with
  | nil => cases h
  | cons x xs =>
    rcases List.mem_cons.mp h with rfl | hx
    · exact foldl_min_le_init xs y
    · exact foldl_min_le_mem xs x y hx

theorem listMin_eq (l : List Int) (x : Int) (hmem : x ∈ l)
    (hle : ∀ y ∈ l, x ≤ y) : listMin l = x := by
  refine le_antisymm (listMin_le l x hmem) ?_
  cases l with
  | nil => cases hmem
  | cons z zs =>
    show x ≤ zs.foldl min z
    rcases foldl_min_mem_or zs z with h | h
    · rw [h]
      exact hle z (List.mem_cons_self z zs)
    · exact hle _ (List.mem_cons_of_mem z h)

theorem foldl_max_init_le (xs : List Int) (a : Int) : a ≤ xs.foldl max a := by
  induction xs generalizing a with
  | nil => exact le_refl a
  | cons y ys ih => exact le_trans (le_max_left a y) (ih (max a y))

theorem foldl_max_mem_le (xs : List Int) (a y : Int) (h : y ∈ xs) :
    y ≤ xs.foldl max a := by
  induction xs generalizing a with
  | nil => cases h
  | cons z zs ih =>
    rcases List.mem_cons.mp h with rfl | hz
    · exact le_trans (le_max_right a y) (foldl_max_init_le zs (max a y))
    · exact ih (max a z) hz

theorem foldl_max_mem_or (xs : List Int) (a : Int) :
    xs.foldl max a = a ∨ xs.foldl max a ∈ xs := by
  induction xs generalizing a with
  | nil => exact Or.inl rfl
  | cons y ys ih =>
    rcases ih (max a y) with h | h
    · rcases le_total a y with hay | hay
      · right
        rw [List.foldl_cons, h, max_eq_right hay]
        exact List.mem_cons_self y ys
      · left
        rw [List.foldl_cons, h, max_eq_left hay]
    · right
      exact List.mem_cons_of_mem y h

theorem le_listMax (l : List Int) (y : Int) (h : y ∈ l) : y ≤ listMax l := by
  cases l with
  | nil => cases h
  | cons x xs =>
    rcases List.mem_cons.mp h with rfl | hx
    · exact foldl_max_init_le xs y
    · exact foldl_max_mem_le xs x y hx

theorem listMax_eq (l : List Int) (x : Int) (hmem : x ∈ l)
    (hge : ∀ y ∈ l, y ≤ x) : listMax l = x := by
  refine le_antisymm ?_ (le_listMax l x hmem)
  cases l with
  | nil => cases hmem
  | cons z zs =>
    show zs.foldl max z ≤ x
    rcases foldl_max_mem_or zs z with h | h
    · rw [h]
      exact hge z (List.mem_cons_self z zs)
    · exact hge _ (List.mem_cons_of_mem z h)

theorem mem_gridTimes {a d : Int} {n : Nat} {t : Int} :
    t ∈ gridTimes a d n ↔ ∃ k : Nat, k < n ∧ t = a + d * (k : Int) := by
  simp only [gridTimes, List.mem_map, List.mem_range]
  constructor
  · rintro ⟨k, hk, rfl⟩
    exact ⟨k, hk, rfl⟩
  · rintro ⟨k, hk, rfl⟩
    exact ⟨k, hk, rfl⟩

theorem mem_gridSeries {a d : Int} {n : Nat} {e : Int × Int} :
    e ∈ gridSeries a d n ↔
      e.2 = 0 ∧ ∃ k : Nat, k < n ∧ e.1 = a + d * (k : Int) := by
  constructor
  · intro h
    obtain ⟨t, ht, hte⟩ := List.mem_map.mp h
    subst hte
    exact ⟨rfl, mem_gridTimes.mp ht⟩
  · rintro ⟨h2, k, hk, h1⟩
    obtain ⟨x, y⟩ := e
    simp only at h2 h1
    subst h2
    subst h1
    exact List.mem_map.mpr ⟨a + d * (k : Int), mem_gridTimes.mpr ⟨k, hk, rfl⟩, rfl⟩

theorem seriesTimes_gridSeries (a d : Int) (n : Nat) :
    seriesTimes (gridSeries a d n) = gridTimes a d n := by
  simp only [seriesTimes, gridSeries, List.map_map]
  have hfun : (Prod.fst ∘ fun t : Int => (t, (0 : Int))) = id := rfl
  rw [hfun, List.map_id]

theorem map_shift_gridTimes (a d c : Int) (n : Nat) :
    (gridTimes a d n).map (fun t => t + c) = gridTimes (a + c) d n := by
  simp only [gridTimes, List.map_map]
  have hfun : ((fun t => t + c) ∘ fun k : Nat => a + d * (k : Int)) =
      fun k : Nat => (a + c) + d * (k : Int) := by
    funext k
    simp only [Function.comp]
    ring
  rw [hfun]

theorem listMin_gridTimes (a d : Int) (n : Nat) (hd : 0 ≤ d) (hn : 0 < n) :
    listMin (gridTimes a d n) = a := by
  apply listMin_eq
  · exact mem_gridTimes.mpr ⟨0, hn, by simp⟩
  · intro y hy
    obtain ⟨k, hk, rfl⟩ := mem_gridTimes.mp hy
    have hkd : 0 ≤ d * (k : Int) := mul_nonneg hd (Int.natCast_nonneg k)
    linarith

theorem listMax_gridTimes (a d : Int) (n : Nat) (hd : 0 ≤ d) (hn : 0 < n) :
    listMax (gridTimes a d n) = a + d * ((n : Int) - 1) := by
  apply listMax_eq
  · refine mem_gridTimes.mpr ⟨n - 1, by omega, ?_⟩
    have hc : ((n - 1 : Nat) : Int) = (n : Int) - 1 := by omega
    rw [hc]
  · intro y hy
    obtain ⟨k, hk, rfl⟩ := mem_gridTimes.mp hy
    have hk1 : (k : Int) ≤ (n : Int) - 1 := by omega
    have := mul_le_mul_of_nonneg_left hk1 hd
    linarith

theorem grid_step_mem {b d x : Int} {m : Nat} (hd : 0 < d)
    (hdvd : d ∣ (x - b)) (hlo : b ≤ x)
    (hhi : x ≤ b + d * ((m : Int) - 1)) :
    ∃ k : Nat, k < m ∧ x = b + d * (k : Int) := by
  obtain ⟨j, hj⟩ := hdvd
  have hj0 : 0 ≤ j := by
    by_contra hneg
    push_neg at hneg
    have : d * j < 0 := mul_neg_of_pos_of_neg hd hneg
    linarith
  have hjm : j ≤ (m : Int) - 1 := by
    have h1 : d * j ≤ d * ((m : Int) - 1) := by linarith
    exact le_of_mul_le_mul_left h1 hd
  have hcast : ((j.toNat : Nat) : Int) = j := Int.toNat_of_nonneg hj0
  refine ⟨j.toNat, by omega, ?_⟩
  rw [hcast]
  linarith

/-- Claim C1: for any lag with valid lead units, `reduce_time_series`
shifts the reference's time axis backward by the lag's calendar offset,
takes lower = max(forecast's earliest time, reference's earliest time) and
upper = min(forecast's latest time, shifted-reference's latest time), and
returns exactly the forecast entries with time in [lower, upper] and the
reference entries with time ≥ lower, all values and their order
untouched. -/
theorem reduce_time_series_window (forecast reference : Series)
    (leadUnits : String) (nlags nv : Int) (freq : String)
    (cfShift : Int → String → Int → Int)
    (hok : get_lead_cftime_shift_args leadUnits nlags = .ok (nv, freq)) :
    reduce_time_series forecast reference leadUnits nlags cfShift =
      .ok
        (forecast.filter (fun e =>
          decide (e.1 ≤ min (listMax (seriesTimes forecast))
            (listMax ((seriesTimes reference).map (cfShift (-nv) freq)))) &&
          decide (max (listMin (seriesTimes forecast))
            (listMin (seriesTimes reference)) ≤ e.1)),
         reference.filter (fun e =>
          decide (max (listMin (seriesTimes forecast))
            (listMin (seriesTimes reference)) ≤ e.1))) :=
  reduce_time_series_eq forecast reference leadUnits nlags nv freq cfShift hok

/-- Witness for C1 on a concrete pair of day-resolution series at lag 1. -/
theorem reduce_time_series_window_witness :
    reduce_time_series [((0 : Int), (10 : Int)), (2, 20)]
      [((1 : Int), (5 : Int)), (3, 6)] "days" 1 dayShift =
      .ok ([(2, 20)], [(1, 5), (3, 6)]) := by
  have h := reduce_time_series_window [(0, 10), (2, 20)] [(1, 5), (3, 6)]
    "days" 1 1 "D" dayShift rfl
  rw [h]
  decide

/-- Counterexample to claim C2 as stated: two identical regularly spaced
day axes `{0, 1}` at lag 1 (offset one day).  After alignment the retained
forecast is `{0}` and the retained reference is `{0, 1}`; the reference
value at time 0, shifted backward by the offset, lands at -1, which is no
retained forecast initialization — the backward direction of the claimed
correspondence fails. -/
theorem reduce_time_series_lag_asymmetry :
    reduce_time_series [((0 : Int), (0 : Int)), (1, 0)]
      [((0 : Int), (0 : Int)), (1, 0)] "days" 1 dayShift =
      .ok ([(0, 0)], [(0, 0), (1, 0)]) ∧
    ¬ lagCorrespondence [((0 : Int), (0 : Int))]
      [((0 : Int), (0 : Int)), (1, 0)] 1 :=
  ⟨by decide, by decide⟩

/-- Claim C2 (amended): align two regularly spaced series on the same grid
(spacing `d`, aligned starts, `n` resp. `m` points) at a lag whose
day offset `L * d` is a whole number of grid steps.  Then (i) every
retained forecast initialization advanced by the offset is the time of a
retained reference value, and (ii) a retained reference value shifted
backward by the offset is a retained forecast initialization PROVIDED the
shifted time falls inside the overlap window [max a b,
min(forecast latest, shifted-reference latest)]; reference values whose
shifted time falls outside that window (the code lower-bounds but never
upper-bounds the reference, and keeps reference values within one offset
of the lower bound) need not have one. -/
theorem reduce_time_series_lag_alignment (a b d L : Int) (n m : Nat)
    (fc ref : Series) (hd : 0 < d) (hL : 0 ≤ L) (hab : d ∣ (a - b))
    (hn : 0 < n) (hm : 0 < m)
    (hred : reduce_time_series (gridSeries a d n) (gridSeries b d m) "days"
      (L * d) dayShift = .ok (fc, ref)) :
    (∀ e ∈ fc, ∃ e2 ∈ ref, e.1 + L * d = e2.1) ∧
    (∀ e2 ∈ ref, max a b ≤ e2.1 - L * d →
      e2.1 - L * d ≤ min (a + d * ((n : Int) - 1))
        (b + d * ((m : Int) - 1) - L * d) →
      ∃ e ∈ fc, e2.1 - L * d = e.1) := by
  have heq := reduce_time_series_eq (gridSeries a d n) (gridSeries b d m)
    "days" (L * d) (L * d) "D" dayShift rfl
  rw [heq, Except.ok.injEq, Prod.mk.injEq] at hred
  obtain ⟨hfc, href⟩ := hred
  subst hfc
  subst href
  have hshift : (seriesTimes (gridSeries b d m)).map (dayShift (-(L * d)) "D") =
      gridTimes (b + -(L * d)) d m := by
    rw [seriesTimes_gridSeries]
    have hds : dayShift (-(L * d)) "D" = fun t => t + -(L * d) := rfl
    rw [hds, map_shift_gridTimes]
  have hmin : max (listMin (seriesTimes (gridSeries a d n)))
      (listMin (seriesTimes (gridSeries b d m))) = max a b := by
    rw [seriesTimes_gridSeries, seriesTimes_gridSeries,
      listMin_gridTimes a d n hd.le hn, listMin_gridTimes b d m hd.le hm]
  have hmax : min (listMax (seriesTimes (gridSeries a d n)))
      (listMax ((seriesTimes (gridSeries b d m)).map (dayShift (-(L * d)) "D"))) =
      min (a + d * ((n : Int) - 1)) (b + d * ((m : Int) - 1) - L * d) := by
    rw [seriesTimes_gridSeries, hshift, listMax_gridTimes a d n hd.le hn,
      listMax_gridTimes _ d m hd.le hm]
    have : b + -(L * d) + d * ((m : Int) - 1) =
        b + d * ((m : Int) - 1) - L * d := by ring
    rw [this]
  rw [hmin, hmax]
  have hLd : 0 ≤ L * d := mul_nonneg hL hd.le
  obtain ⟨s, hs⟩ := hab
  constructor
  · intro e he
    rw [List.mem_filter] at he
    obtain ⟨hegrid, hcond⟩ := he
    rw [Bool.and_eq_true, decide_eq_true_eq, decide_eq_true_eq] at hcond
    obtain ⟨hle, hge⟩ := hcond
    obtain ⟨hz, k, hk, he1⟩ := mem_gridSeries.mp hegrid
    have hdvd : d ∣ (e.1 + L * d - b) := by
      refine ⟨s + (k : Int) + L, ?_⟩
      rw [he1]
      linear_combination hs
    have hlo : b ≤ e.1 + L * d := by
      have hb := le_max_right a b
      linarith
    have hhi : e.1 + L * d ≤ b + d * ((m : Int) - 1) := by
      have h1 : e.1 ≤ b + d * ((m : Int) - 1) - L * d :=
        le_trans hle (min_le_right _ _)
      linarith
    obtain ⟨j, hj, hje⟩ := grid_step_mem hd hdvd hlo hhi
    refine ⟨(e.1 + L * d, 0), ?_, rfl⟩
    rw [List.mem_filter]
    refine ⟨mem_gridSeries.mpr ⟨rfl, j, hj, hje⟩, ?_⟩
    rw [decide_eq_true_eq]
    show max a b ≤ e.1 + L * d
    linarith
  · intro e2 he2 hlow hhigh
    rw [List.mem_filter] at he2
    obtain ⟨hegrid, _⟩ := he2
    obtain ⟨hz, j, hj, hje⟩ := mem_gridSeries.mp hegrid
    have hdvd : d ∣ (e2.1 - L * d - a) := by
      refine ⟨(j : Int) - L - s, ?_⟩
      rw [hje]
      linear_combination -hs
    have hlo2 : a ≤ e2.1 - L * d := le_trans (le_max_left a b) hlow
    have hhi2 : e2.1 - L * d ≤ a + d * ((n : Int) - 1) :=
      le_trans hhigh (min_le_left _ _)
    obtain ⟨k, hk, hke⟩ := grid_step_mem hd hdvd hlo2 hhi2
    refine ⟨(e2.1 - L * d, 0), ?_, rfl⟩
    rw [List.mem_filter]
    refine ⟨mem_gridSeries.mpr ⟨rfl, k, hk, hke⟩, ?_⟩
    rw [Bool.and_eq_true, decide_eq_true_eq, decide_eq_true_eq]
    exact ⟨hhigh, hlow⟩

/-- Witness for C2 on the grid `{0, 1, 2}` against itself at lag 1 with
unit spacing. -/
theorem reduce_time_series_lag_alignment_witness :
    (∀ e ∈ ([((0 : Int), (0 : Int)), (1, 0)] : Series),
      ∃ e2 ∈ ([((0 : Int), (0 : Int)), (1, 0), (2, 0)] : Series),
        e.1 + 1 * 1 = e2.1) ∧
    (∀ e2 ∈ ([((0 : Int), (0 : Int)), (1, 0), (2, 0)] : Series),
      max 0 0 ≤ e2.1 - 1 * 1 →
      e2.1 - 1 * 1 ≤ min (0 + 1 * (((3 : Nat) : Int) - 1))
        (0 + 1 * (((3 : Nat) : Int) - 1) - 1 * 1) →
      ∃ e ∈ ([((0 : Int), (0 : Int)), (1, 0)] : Series),
        e2.1 - 1 * 1 = e.1) :=
  reduce_time_series_lag_alignment 0 0 1 1 3 3 [(0, 0), (1, 0)]
    [(0, 0), (1, 0), (2, 0)] (by decide) (by decide) (by decide)
    (by decide) (by decide) (by decide)

end Climpred
